import Mathlib

/-!
Verification of the InstaPose AI application (React / TypeScript).

The development is a shallow embedding of the parts of the program the
claims talk about:

* the data model of `types.ts` (AnalysisResult, PoseFeedback,
  PoseLandmarks, GalleryImage, Gender, PoseStyle);
* the session state of `App.tsx` (`useState` hooks) as a record
  `AppState`, and the three branches of `handleCaptureFrame`
  (analyze / grade / save) as state-transformer functions; remote
  Gemini calls are parameters (oracles) giving the outcome of each call;
* gallery persistence (`localStorage` + `JSON.stringify` / `JSON.parse`)
  with a JSON document model and an executable encoder/decoder for the
  stored gallery array; the text layer (JSON value to string and back)
  is a parameter constrained where needed;
* the UI gating of `App.tsx` (which action buttons are rendered and
  when they carry a `disabled` attribute) as boolean predicates, and an
  event-interleaving step relation for the asynchronous pipelines.
-/

namespace InstaPose

/-! ## Data model (`types.ts`) -/

/-- `LightingAnalysis.quality` of types.ts. -/
inductive LightQuality where
  | excellent | good | fair | poor
deriving DecidableEq

/-- `LightingAnalysis` of types.ts. -/
structure LightingAnalysis where
  quality : LightQuality
  direction : String
  suggestion : String
deriving DecidableEq

/-- `BackgroundAnalysis.clutterLevel` of types.ts. -/
inductive ClutterLevel where
  | clean | moderate | cluttered
deriving DecidableEq

/-- `BackgroundAnalysis` of types.ts. -/
structure BackgroundAnalysis where
  clutterLevel : ClutterLevel
  suggestion : String
deriving DecidableEq

/-- `PoseSuggestion.difficulty` of types.ts. -/
inductive Difficulty where
  | easy | medium | hard
deriving DecidableEq

/-- `PoseSuggestion` of types.ts. -/
structure PoseSuggestion where
  title : String
  description : String
  difficulty : Difficulty
  steps : List String
deriving DecidableEq

/-- `AnalysisResult` of types.ts. -/
structure AnalysisResult where
  environment : String
  lighting : LightingAnalysis
  background : BackgroundAnalysis
  suggestedPose : PoseSuggestion
deriving DecidableEq

/-- `PoseFeedback.matchStatus` of types.ts. -/
inductive MatchStatus where
  | perfect | good | needsImprovement
deriving DecidableEq

/-- `PoseFeedback` of types.ts.  `score` is a JSON number constrained to
an integer 0..100 by the response schema; it is modelled as `Int`. -/
structure PoseFeedback where
  score : Int
  matchStatus : MatchStatus
  adjustments : List String
deriving DecidableEq

/-- `Point` of types.ts (landmark coordinates, normalized 0..100). -/
structure Point where
  x : Int
  y : Int
deriving DecidableEq

/-- `PoseLandmarks` of types.ts: every body part is optional. -/
structure PoseLandmarks where
  nose : Option Point := none
  leftShoulder : Option Point := none
  rightShoulder : Option Point := none
  leftElbow : Option Point := none
  rightElbow : Option Point := none
  leftWrist : Option Point := none
  rightWrist : Option Point := none
  leftHip : Option Point := none
  rightHip : Option Point := none
deriving DecidableEq

/-- `GalleryImage` of types.ts.  `referenceImage?: string | null` is an
`Option String` (the save branch always supplies the field, possibly
null); `timestamp` is `Date.now()`, a nonnegative integer. -/
structure GalleryImage where
  id : String
  imageData : String
  referenceImage : Option String
  score : Int
  timestamp : Int
deriving DecidableEq

/-- `Gender` enum of types.ts. -/
inductive Gender where
  | female | male | neutral
deriving DecidableEq

/-- `PoseStyle` enum of types.ts. -/
inductive PoseStyle where
  | casual | professional | creative | street | glamour
deriving DecidableEq

/-! ## Session state of `App.tsx`

One field per `useState` hook of the `App` component (the transient
`flash` flag included).  `captureIntent` is a ref, not state; it is
modelled by which dispatch function runs. -/

structure AppState where
  isAnalyzing : Bool
  isGrading : Bool
  analysisResult : Option AnalysisResult
  poseFeedback : Option PoseFeedback
  generatedPoseImage : Option String
  poseLandmarks : Option PoseLandmarks
  gallery : List GalleryImage
  selectedGender : Gender
  selectedStyle : PoseStyle
  error : Option String
  autoSaveMessage : Option String
  flash : Bool
deriving DecidableEq

/-- The initial state of the `App` component with empty persisted
storage: both busy flags false, all analysis state null, empty gallery,
gender `Female`, style `Casual`. -/
def initState : AppState where
  isAnalyzing := false
  isGrading := false
  analysisResult := none
  poseFeedback := none
  generatedPoseImage := none
  poseLandmarks := none
  gallery := []
  selectedGender := .female
  selectedStyle := .casual
  error := none
  autoSaveMessage := none
  flash := false

/-- The error message set by the analyze branch of `handleCaptureFrame`. -/
def analyzeErrorMsg : String := "AI was unable to generate a suggestion. Please try again."

/-- The error message set by the grade branch of `handleCaptureFrame`. -/
def gradeErrorMsg : String := "Could not grade pose. Try again."

/-- The toast message set by the save branch of `handleCaptureFrame`. -/
def savedMsg : String := "Photo saved to Gallery!"

/-- Outcomes of the remote Gemini calls used by the analyze pipeline,
passed in as an oracle: `analyzeScene` models `analyzeSceneAndSuggest`
(throws on failure), `generateRef` models `generatePoseReference`
(throws on failure), `extractLandmarks` models `extractPoseLandmarks`
(never throws, returns `null` on failure — see `extractPoseLandmarks`
below). -/
structure AnalyzeOracle where
  analyzeScene : String → Gender → PoseStyle → Except Unit AnalysisResult
  generateRef : String → Gender → PoseStyle → Except Unit String
  extractLandmarks : String → Option PoseLandmarks

/-- The analyze branch of `handleCaptureFrame` (App.tsx): clears error
and toast, sets `isAnalyzing`, resets feedback and landmarks, then runs
the three steps in order, each `set` applied as soon as its `await`
resolves; any rejection jumps to the single `catch` which sets one error
message; `finally` clears `isAnalyzing`. -/
def analyzeDispatch (o : AnalyzeOracle) (s : AppState) (base64Image : String) : AppState :=
  let s1 := { s with error := none, autoSaveMessage := none,
                     isAnalyzing := true, poseFeedback := none, poseLandmarks := none }
  match o.analyzeScene base64Image s.selectedGender s.selectedStyle with
  | .error _ => { s1 with error := some analyzeErrorMsg, isAnalyzing := false }
  | .ok result =>
    let s2 := { s1 with analysisResult := some result }
    match o.generateRef result.suggestedPose.description s.selectedGender s.selectedStyle with
    | .error _ => { s2 with error := some analyzeErrorMsg, isAnalyzing := false }
    | .ok img =>
      let s3 := { s2 with generatedPoseImage := some img }
      { s3 with poseLandmarks := o.extractLandmarks img, isAnalyzing := false }

/-- The grade branch of `handleCaptureFrame` (App.tsx): clears error and
toast, returns early when `analysisResult` is null (before any remote
call), otherwise sets `isGrading`, calls `evaluatePoseMatch` (the oracle
`o`), stores the feedback or sets the error, and clears `isGrading`. -/
def gradeDispatch (o : String → String → Except Unit PoseFeedback)
    (s : AppState) (base64Image : String) : AppState :=
  let s1 := { s with error := none, autoSaveMessage := none }
  match s1.analysisResult with
  | none => s1
  | some r =>
    let s2 := { s1 with isGrading := true }
    match o base64Image r.suggestedPose.description with
    | .error _ => { s2 with error := some gradeErrorMsg, isGrading := false }
    | .ok fb => { s2 with poseFeedback := some fb, isGrading := false }

/-- JavaScript `x || d` on numbers: `x` when truthy (nonzero), else `d`.
Models `poseFeedback?.score || 0` together with the optional chaining. -/
def jsOrNum (x d : Int) : Int := if x = 0 then d else x

/-- The gallery update of the save branch:
`setGallery(prev => [newImage, ...prev].slice(0, 20))`. -/
def updateGallery (newImage : GalleryImage) (prev : List GalleryImage) : List GalleryImage :=
  (newImage :: prev).take 20

/-- The save branch of `handleCaptureFrame` (App.tsx): clears error and
toast, builds a `GalleryImage` from the captured frame, the current
reference image and `poseFeedback?.score || 0`, triggers the flash,
prepends it to the gallery capped at 20, and sets the toast message.
`now` is `Date.now()`, used for both `id` and `timestamp`. -/
def saveDispatch (s : AppState) (base64Image : String) (now : Nat) : AppState :=
  let s1 := { s with error := none, autoSaveMessage := none }
  let newImage : GalleryImage :=
    { id := toString now
      imageData := base64Image
      referenceImage := s1.generatedPoseImage
      score := match s1.poseFeedback with
        | some fb => jsOrNum fb.score 0
        | none => 0
      timestamp := Int.ofNat now }
  { s1 with flash := true
            gallery := updateGallery newImage s1.gallery
            autoSaveMessage := some savedMsg }

/-- `deleteFromGallery` (App.tsx):
`setGallery(prev => prev.filter(img => img.id !== id))`. -/
def deleteFromGallery (id : String) (prev : List GalleryImage) : List GalleryImage :=
  prev.filter (fun img => img.id != id)

/-- `reset` (App.tsx): clears the whole analysis session. -/
def resetSession (s : AppState) : AppState :=
  { s with analysisResult := none, generatedPoseImage := none,
           poseLandmarks := none, poseFeedback := none,
           error := none, autoSaveMessage := none }

/-! ## Gallery persistence

The gallery is persisted under the `localStorage` key
`instapose_gallery` as `JSON.stringify(gallery)` and read back in the
`useState` initializer by `JSON.parse` inside a try/catch.  JSON
documents are modelled by the inductive `Json`; `galleryToJson` is the
(shape of the) output of `JSON.stringify` on a `GalleryImage[]`, and
`galleryFromJson` is `JSON.parse` restricted to that shape.  The
text layer (document to string and back) is a parameter; where a claim
needs it, it is constrained to be lossless on the documents involved,
which `JSON.stringify` / `JSON.parse` are. -/

/-- JSON documents.  Numbers are modelled as integers (every number the
app stores — `Date.now()`, schema-INTEGER scores — is one). -/
inductive Json where
  | null
  | str (s : String)
  | num (n : Int)
  | bool (b : Bool)
  | arr (elems : List Json)
  | obj (fields : List (String × Json))

/-- `JSON.stringify` on one `GalleryImage`: the object with the fields
the save branch writes, `referenceImage` serialized as JSON null when
absent. -/
def imageToJson (g : GalleryImage) : Json :=
  .obj [("id", .str g.id),
        ("imageData", .str g.imageData),
        ("referenceImage", match g.referenceImage with
          | none => .null
          | some r => .str r),
        ("score", .num g.score),
        ("timestamp", .num g.timestamp)]

/-- `JSON.stringify(gallery)`: the array of the serialized images. -/
def galleryToJson (g : List GalleryImage) : Json :=
  .arr (g.map imageToJson)

/-- Read a string field of a parsed JSON object. -/
def fieldStr (fields : List (String × Json)) (k : String) : Except Unit String :=
  match fields.lookup k with
  | some (.str s) => .ok s
  | _ => .error ()

/-- Read a number field of a parsed JSON object. -/
def fieldNum (fields : List (String × Json)) (k : String) : Except Unit Int :=
  match fields.lookup k with
  | some (.num n) => .ok n
  | _ => .error ()

/-- Read a string-or-null field of a parsed JSON object. -/
def fieldOptStr (fields : List (String × Json)) (k : String) : Except Unit (Option String) :=
  match fields.lookup k with
  | some .null => .ok none
  | some (.str s) => .ok (some s)
  | _ => .error ()

/-- `JSON.parse` restricted to one stored gallery entry.  The source
performs no runtime validation (`JSON.parse(saved) as GalleryImage[]`);
this decoder is the typed reading of that cast: it recovers exactly the
shape `imageToJson` writes. -/
def imageFromJson (j : Json) : Except Unit GalleryImage :=
  match j with
  | .obj fields => do
    let id ← fieldStr fields "id"
    let imageData ← fieldStr fields "imageData"
    let referenceImage ← fieldOptStr fields "referenceImage"
    let score ← fieldNum fields "score"
    let timestamp ← fieldNum fields "timestamp"
    .ok { id := id, imageData := imageData, referenceImage := referenceImage,
          score := score, timestamp := timestamp }
  | _ => .error ()

/-- `JSON.parse` restricted to a stored gallery array, elementwise. -/
def galleryItemsFromJson : List Json → Except Unit (List GalleryImage)
  | [] => .ok []
  | j :: js => do
    let img ← imageFromJson j
    let rest ← galleryItemsFromJson js
    .ok (img :: rest)

/-- `JSON.parse` restricted to a stored gallery document. -/
def galleryFromJson (j : Json) : Except Unit (List GalleryImage) :=
  match j with
  | .arr elems => galleryItemsFromJson elems
  | _ => .error ()

/-- The persist effect (App.tsx `useEffect`):
`localStorage.setItem` of `JSON.stringify(gallery)` under the key `instapose_gallery`.
`stringify` is the document-to-text layer of the platform. -/
def persistGallery (stringify : Json → String) (g : List GalleryImage) : String :=
  stringify (galleryToJson g)

/-- Whether a JSON value is an array. -/
def Json.isArr : Json → Bool
  | .arr _ => true
  | _ => false

/-- The gallery `useState` initializer (App.tsx), as the runtime value
it returns: `saved ? JSON.parse(saved) : []` inside try/catch.  The
empty array is returned when the key is absent (`saved` is null), when
`saved` is the empty string (falsy), or when `JSON.parse` throws
(`parseDoc` fails); otherwise the parsed document is returned unchanged
— the `as GalleryImage[]` cast performs no runtime validation, so a
successfully parsed document keeps whatever shape it has. -/
def loadGalleryValue (saved : Option String) (parseDoc : String → Except Unit Json) :
    Json :=
  match saved with
  | none => .arr []
  | some s =>
    if s = "" then .arr []
    else
      match parseDoc s with
      | .error _ => .arr []
      | .ok j => j

/-! ## The landmark service (`geminiService.ts`)

`extractPoseLandmarks` wraps the remote call in a try/catch that
returns `null` on any error, and returns `null` when the response has
no text; its result type is `PoseLandmarks | null`, never an
exception.  `resp` is the outcome of `ai.models.generateContent`
(`error` = the call rejected, `ok t` = it resolved with optional text
`t`), and `parse` is `JSON.parse` on the response text (a throw is
caught by the same catch). -/

def extractPoseLandmarks (resp : Except Unit (Option String))
    (parse : String → Except Unit PoseLandmarks) : Option PoseLandmarks :=
  match resp with
  | .error _ => none
  | .ok none => none
  | .ok (some t) =>
    match parse t with
    | .error _ => none
    | .ok lm => some lm

/-! ## UI gating (`App.tsx` JSX)

Which trigger is available in a given state, read off the rendered
buttons and their `disabled` attributes:

* `triggerAnalysis` is wired to the Suggest Pose button (rendered when
  `analysisResult` is null) and to the Regenerate button (rendered
  otherwise); both carry `disabled={isAnalyzing}` only.
* `triggerGrading` is wired to the Check Alignment / re-grade buttons,
  rendered only when `analysisResult` is non-null, both carrying
  `disabled={isGrading}` only.
* `triggerSave` is wired to the Capture Photo button, rendered only
  when `analysisResult` is non-null and `poseFeedback && poseFeedback.score > 50`,
  with no `disabled` attribute at all. -/

/-- The analyze trigger is available iff no analyze is pending. -/
def analyzeEnabled (s : AppState) : Bool := !s.isAnalyzing

/-- The grade trigger is available iff an analysis exists and no grade
is pending. -/
def gradeEnabled (s : AppState) : Bool := s.analysisResult.isSome && !s.isGrading

/-- The save trigger is available iff an analysis exists and the last
feedback scored above 50 (the button is never disabled). -/
def saveEnabled (s : AppState) : Bool :=
  s.analysisResult.isSome &&
    match s.poseFeedback with
    | some fb => decide (fb.score > 50)
    | none => false

/-! ## Interleaving semantics of the asynchronous pipelines

The analyze and grade pipelines `await` remote calls, so other events
run between the start and the finish of a pipeline.  `Ev` labels the atomic
events: the start of a pipeline is its synchronous prefix (up to the first
`await`), its finish applies the remaining `set` calls when the awaited
promises resolve; save and delete are synchronous.  A start event is
guarded by the availability of its trigger button. -/

inductive Ev where
  | startAnalyze
  | finishAnalyzeOk (r : AnalysisResult) (img : String) (lm : Option PoseLandmarks)
  | finishAnalyzeErr
  | startGrade
  | finishGradeOk (fb : PoseFeedback)
  | finishGradeErr
  | saveEv (img : String) (now : Nat)
  | resetEv
  | deleteEv (id : String)

/-- One atomic step of the App component. -/
inductive Step : AppState → Ev → AppState → Prop where
  | startAnalyze {s : AppState} (h : analyzeEnabled s = true) :
      Step s .startAnalyze
        { s with error := none, autoSaveMessage := none,
                 isAnalyzing := true, poseFeedback := none, poseLandmarks := none }
  | finishAnalyzeOk {s : AppState} (r : AnalysisResult) (img : String)
      (lm : Option PoseLandmarks) (h : s.isAnalyzing = true) :
      Step s (.finishAnalyzeOk r img lm)
        { s with analysisResult := some r, generatedPoseImage := some img,
                 poseLandmarks := lm, isAnalyzing := false }
  | finishAnalyzeErr {s : AppState} (h : s.isAnalyzing = true) :
      Step s .finishAnalyzeErr
        { s with error := some analyzeErrorMsg, isAnalyzing := false }
  | startGrade {s : AppState} (h : gradeEnabled s = true) :
      Step s .startGrade
        { s with error := none, autoSaveMessage := none, isGrading := true }
  | finishGradeOk {s : AppState} (fb : PoseFeedback) (h : s.isGrading = true) :
      Step s (.finishGradeOk fb)
        { s with poseFeedback := some fb, isGrading := false }
  | finishGradeErr {s : AppState} (h : s.isGrading = true) :
      Step s .finishGradeErr
        { s with error := some gradeErrorMsg, isGrading := false }
  | saveEv {s : AppState} (img : String) (now : Nat) (h : saveEnabled s = true) :
      Step s (.saveEv img now) (saveDispatch s img now)
  | resetEv {s : AppState} (h : s.analysisResult.isSome = true) :
      Step s .resetEv (resetSession s)
  | deleteEv {s : AppState} (id : String) :
      Step s (.deleteEv id) { s with gallery := deleteFromGallery id s.gallery }

/-- States reachable from the initial state by atomic steps. -/
def Reachable (s : AppState) : Prop :=
  Relation.ReflTransGen (fun a b => ∃ e, Step a e b) initState s

/-! ## Concrete sample values (for witnesses and counterexamples) -/

/-- A concrete analysis result, as the scene-analysis schema shapes it. -/
def sampleResult : AnalysisResult where
  environment := "Bedroom"
  lighting := { quality := .good, direction := "Front", suggestion := "Face the window" }
  background := { clutterLevel := .clean, suggestion := "Step away from the wall" }
  suggestedPose := { title := "Lean Back", description := "Lean on the wall",
                     difficulty := .easy, steps := ["Chin up", "Hand in pocket"] }

/-- A concrete gallery entry. -/
def sampleImage : GalleryImage where
  id := "100"
  imageData := "abc"
  referenceImage := none
  score := 0
  timestamp := 100

/-- A concrete gallery entry with a reference image and a score. -/
def sampleImage2 : GalleryImage where
  id := "200"
  imageData := "def"
  referenceImage := some "ref"
  score := 87
  timestamp := 200

/-- A concrete pose feedback. -/
def sampleFeedback : PoseFeedback where
  score := 80
  matchStatus := .good
  adjustments := ["Lift left elbow"]

/-- An analyze oracle whose scene analysis succeeds and whose
reference-image generation rejects. -/
def refFailOracle : AnalyzeOracle where
  analyzeScene := fun _ _ _ => .ok sampleResult
  generateRef := fun _ _ _ => .error ()
  extractLandmarks := fun _ => none

/-- A concrete gallery of exactly 20 entries. -/
def galleryTwenty : List GalleryImage := List.replicate 20 sampleImage

/-- A concrete state in which a pose has been suggested (analysis result
and reference image present) but no grade has been recorded. -/
def suggestedState : AppState :=
  { initState with analysisResult := some sampleResult, generatedPoseImage := some "ref" }

/-! ## Theorems -/

/-- C3: every save appends at the front, the gallery never exceeds 20
entries (also along any sequence of appends), and an append at capacity
20 drops exactly the oldest (last) entry, keeping all others in order. -/
theorem gallery_bound_and_order (g : List GalleryImage) (img : GalleryImage)
    (imgs : List GalleryImage) (h : g.length ≤ 20) :
    (updateGallery img g).length ≤ 20 ∧
    (g.length < 20 → updateGallery img g = img :: g) ∧
    (g.length = 20 → updateGallery img g = img :: g.dropLast) ∧
    (imgs.foldl (fun acc i => updateGallery i acc) g).length ≤ 20 := by
  have hlen : ∀ (i : GalleryImage) (l : List GalleryImage),
      (updateGallery i l).length ≤ 20 := by
    intro i l
    simp [updateGallery]
  refine ⟨hlen img g, ?_, ?_, ?_⟩
  · intro hlt
    have : g.take 19 = g := List.take_of_length_le (by omega)
    simp [updateGallery, List.take_succ_cons, this]
  · intro h20
    have : g.dropLast = g.take 19 := by
      rw [List.dropLast_eq_take, h20]
    simp [updateGallery, List.take_succ_cons, this]
  · induction imgs generalizing g with
    | nil => simpa using h
    | cons i is ih => exact ih (updateGallery i g) (hlen i g)

/-- C3 witness: instances of the bound and of the drop-oldest behaviour
at a concrete gallery of 20 entries. -/
theorem gallery_bound_and_order_witness :
    (updateGallery sampleImage2 galleryTwenty).length ≤ 20 ∧
    updateGallery sampleImage2 galleryTwenty = sampleImage2 :: galleryTwenty.dropLast := by
  have h := gallery_bound_and_order galleryTwenty sampleImage2 []
    (by simp [galleryTwenty])
  exact ⟨h.1, h.2.2.1 (by simp [galleryTwenty])⟩

/-- C7: removing an id from the gallery is idempotent, and removing an
id that no entry carries is a no-op (never an error). -/
theorem remove_idempotent_absent_noop (g : List GalleryImage) (id : String) :
    deleteFromGallery id (deleteFromGallery id g) = deleteFromGallery id g ∧
    ((∀ img ∈ g, img.id ≠ id) → deleteFromGallery id g = g) := by
  constructor
  · simp [deleteFromGallery, List.filter_filter]
  · intro h
    refine List.filter_eq_self.mpr ?_
    intro a ha
    simpa using h a ha

/-- C7 witness: idempotence and the absent-id no-op on a concrete
one-element gallery and an id it does not contain. -/
theorem remove_idempotent_witness :
    deleteFromGallery "7" (deleteFromGallery "7" [sampleImage]) =
      deleteFromGallery "7" [sampleImage] ∧
    deleteFromGallery "7" [sampleImage] = [sampleImage] := by
  have h := remove_idempotent_absent_noop [sampleImage] "7"
  exact ⟨h.1, h.2 (by decide)⟩

/-- C5: a grade dispatch issued while no analysis result exists makes no
remote call (its outcome does not depend on the grading oracle) and
leaves the feedback and the whole analysis state unchanged. -/
theorem grade_without_analysis_noop (s : AppState) (img : String)
    (o₁ o₂ : String → String → Except Unit PoseFeedback)
    (h : s.analysisResult = none) :
    gradeDispatch o₁ s img = gradeDispatch o₂ s img ∧
    (gradeDispatch o₁ s img).poseFeedback = s.poseFeedback ∧
    (gradeDispatch o₁ s img).analysisResult = none ∧
    (gradeDispatch o₁ s img).generatedPoseImage = s.generatedPoseImage ∧
    (gradeDispatch o₁ s img).poseLandmarks = s.poseLandmarks ∧
    (gradeDispatch o₁ s img).gallery = s.gallery ∧
    (gradeDispatch o₁ s img).isGrading = s.isGrading ∧
    (gradeDispatch o₁ s img).isAnalyzing = s.isAnalyzing := by
  simp [gradeDispatch, h]

/-- C5 witness: the no-op grade at the initial state, under two oracles
that would disagree if consulted. -/
theorem grade_without_analysis_witness :
    gradeDispatch (fun _ _ => .ok sampleFeedback) initState "frame" =
      gradeDispatch (fun _ _ => .error ()) initState "frame" ∧
    (gradeDispatch (fun _ _ => .ok sampleFeedback) initState "frame").poseFeedback = none := by
  have h := grade_without_analysis_noop initState "frame"
    (fun _ _ => .ok sampleFeedback) (fun _ _ => .error ()) rfl
  exact ⟨h.1, h.2.1⟩

/-- C10: the save dispatch never consults the analysis result — in the
idle state (no analysis, no feedback) it still creates a gallery entry,
first in the gallery, whose reference image is the current generated
reference (null when none) and whose score is 0. -/
theorem save_in_idle_state (s : AppState) (img : String) (now : Nat)
    (h1 : s.analysisResult = none) (h2 : s.poseFeedback = none) :
    (saveDispatch s img now).gallery =
      { id := toString now
        imageData := img
        referenceImage := s.generatedPoseImage
        score := 0
        timestamp := Int.ofNat now : GalleryImage } :: s.gallery.take 19 ∧
    (saveDispatch s img now).analysisResult = none ∧
    (saveDispatch s img now).autoSaveMessage = some savedMsg := by
  refine ⟨?_, by simp [saveDispatch, h1], by simp [saveDispatch]⟩
  simp [saveDispatch, h2, updateGallery, List.take_succ_cons]

/-- C10 witness: a save dispatched at the initial state appends the
default-scored entry. -/
theorem save_in_idle_state_witness :
    (saveDispatch initState "frame" 5).gallery =
      [{ id := "5"
         imageData := "frame"
         referenceImage := none
         score := 0
         timestamp := 5 : GalleryImage }] := by
  have h := save_in_idle_state initState "frame" 5 rfl rfl
  simpa using h.1

/-- C4 counterexample: in a state where a pose has been suggested (an
analysis result exists) but no grade has been recorded, the save trigger
is not available — the Capture Photo button is only rendered once a
feedback with score above 50 exists, so saving is not permitted merely
once a pose has been suggested. -/
theorem save_not_always_permitted_cex :
    suggestedState.analysisResult.isSome = true ∧
    saveEnabled suggestedState = false := ⟨rfl, rfl⟩

/-- C4 (amended): the save trigger is offered only when a feedback with
score above 50 is present; the save dispatch itself does not consult the
grade, and when it runs with no feedback recorded the stored score
defaults to 0. -/
theorem save_gated_by_score (s : AppState) (img : String) (now : Nat)
    (h : s.poseFeedback = none) :
    saveEnabled s = false ∧
    (saveDispatch s img now).gallery =
      updateGallery { id := toString now
                      imageData := img
                      referenceImage := s.generatedPoseImage
                      score := 0
                      timestamp := Int.ofNat now } s.gallery := by
  constructor
  · simp [saveEnabled, h]
  · simp [saveDispatch, h]

/-- C4 witness: the amended statement at the suggested-but-ungraded
state. -/
theorem save_gated_by_score_witness :
    saveEnabled suggestedState = false ∧
    (saveDispatch suggestedState "frame" 5).gallery =
      updateGallery { id := "5"
                      imageData := "frame"
                      referenceImage := some "ref"
                      score := 0
                      timestamp := 5 } [] := by
  exact save_gated_by_score suggestedState "frame" 5 rfl

/-- C1 counterexample: starting from the initial state, an analyze
dispatch whose scene analysis succeeds and whose reference generation
fails leaves the analysis result of the failed attempt in the session —
the state does not revert to its pre-attempt value (where the result was
null), so partial pipeline progress is retained, not discarded. -/
theorem analyze_not_atomic_cex :
    (analyzeDispatch refFailOracle initState "frame").analysisResult = some sampleResult ∧
    (analyzeDispatch refFailOracle initState "frame").analysisResult ≠ initState.analysisResult ∧
    (analyzeDispatch refFailOracle initState "frame").error = some analyzeErrorMsg :=
  ⟨rfl, fun hc => Option.noConfusion hc, rfl⟩

/-- C1 (amended): when the analyze pipeline fails at the
reference-generation step, a single error message is set and the busy
flag is cleared, the feedback and landmarks are null (they were reset at
the start of the attempt), but the analysis result of the failed attempt
is retained and the reference image, gallery and the rest of the state
keep their previous values — the session does not revert to its
pre-attempt state. -/
theorem analyze_ref_failure_state (o : AnalyzeOracle) (s : AppState)
    (img0 : String) (r : AnalysisResult)
    (h1 : o.analyzeScene img0 s.selectedGender s.selectedStyle = .ok r)
    (h2 : o.generateRef r.suggestedPose.description s.selectedGender s.selectedStyle
            = .error ()) :
    analyzeDispatch o s img0 =
      { s with analysisResult := some r
               poseFeedback := none
               poseLandmarks := none
               error := some analyzeErrorMsg
               autoSaveMessage := none
               isAnalyzing := false } := by
  simp [analyzeDispatch, h1, h2]

/-- C1 witness: the amended statement at the initial state under the
concrete oracle whose reference generation rejects. -/
theorem analyze_ref_failure_state_witness :
    analyzeDispatch refFailOracle initState "frame" =
      { initState with analysisResult := some sampleResult
                       error := some analyzeErrorMsg } := by
  exact analyze_ref_failure_state refFailOracle initState "frame" sampleResult rfl rfl

/-- C9: when scene analysis and reference generation succeed and
landmark extraction yields nothing, the dispatch sets no error and keeps
the analysis result and the reference image, with landmarks simply
absent; and the service wrapper `extractPoseLandmarks` maps every
failure (rejected call, empty response, unparsable text) to the value
null rather than an exception. -/
theorem landmarks_absent_is_ok (o : AnalyzeOracle) (s : AppState)
    (img0 img : String) (r : AnalysisResult)
    (h1 : o.analyzeScene img0 s.selectedGender s.selectedStyle = .ok r)
    (h2 : o.generateRef r.suggestedPose.description s.selectedGender s.selectedStyle
            = .ok img)
    (h3 : o.extractLandmarks img = none) :
    analyzeDispatch o s img0 =
      { s with analysisResult := some r
               generatedPoseImage := some img
               poseFeedback := none
               poseLandmarks := none
               error := none
               autoSaveMessage := none
               isAnalyzing := false } ∧
    (∀ parse, extractPoseLandmarks (.error ()) parse = none) ∧
    (∀ parse, extractPoseLandmarks (.ok none) parse = none) ∧
    (∀ parse t, parse t = .error () → extractPoseLandmarks (.ok (some t)) parse = none) := by
  refine ⟨?_, fun _ => rfl, fun _ => rfl, fun parse t ht => ?_⟩
  · simp [analyzeDispatch, h1, h2, h3]
  · simp [extractPoseLandmarks, ht]

/-- C9 witness: the landmark-absent outcome at the initial state under a
concrete oracle whose landmark extraction returns null. -/
theorem landmarks_absent_is_ok_witness :
    analyzeDispatch
      { analyzeScene := fun _ _ _ => .ok sampleResult
        generateRef := fun _ _ _ => .ok "ref"
        extractLandmarks := fun _ => none } initState "frame" =
      { initState with analysisResult := some sampleResult
                       generatedPoseImage := some "ref" } ∧
    extractPoseLandmarks (.ok (some "bad")) (fun _ => .error ()) = none := by
  have h := landmarks_absent_is_ok
    { analyzeScene := fun _ _ _ => .ok sampleResult
      generateRef := fun _ _ _ => .ok "ref"
      extractLandmarks := fun _ => none } initState "frame" "ref" sampleResult rfl rfl rfl
  exact ⟨h.1, h.2.2.2 (fun _ => .error ()) "bad" rfl⟩

/-- State after starting an analyze from the initial state. -/
def cexS1 : AppState :=
  { initState with error := none, autoSaveMessage := none,
                   isAnalyzing := true, poseFeedback := none, poseLandmarks := none }

/-- State after that analyze finished successfully. -/
def cexS2 : AppState :=
  { cexS1 with analysisResult := some sampleResult, generatedPoseImage := some "ref",
               poseLandmarks := none, isAnalyzing := false }

/-- State after a grade was then started (grade pending). -/
def cexS3 : AppState :=
  { cexS2 with error := none, autoSaveMessage := none, isGrading := true }

/-- State after an analyze was started while that grade is still
pending: both busy flags are set. -/
def cexS4 : AppState :=
  { cexS3 with error := none, autoSaveMessage := none,
               isAnalyzing := true, poseFeedback := none, poseLandmarks := none }

/-- C2 counterexample: a reachable state carries both busy flags at
once.  The analyze trigger is disabled only while `isAnalyzing`, so
while a grade is pending (grade button pressed after a completed
analyze) the analyze trigger is still available and starting it makes
`isAnalyzing` and `isGrading` simultaneously true — the busy flags are
not mutually exclusive and concurrent pipelines are not prevented. -/
theorem busy_flags_not_exclusive_cex :
    ∃ s : AppState, Reachable s ∧ s.isAnalyzing = true ∧ s.isGrading = true := by
  have h1 : Step initState .startAnalyze cexS1 := Step.startAnalyze rfl
  have h2 : Step cexS1 (.finishAnalyzeOk sampleResult "ref" none) cexS2 :=
    Step.finishAnalyzeOk sampleResult "ref" none rfl
  have h3 : Step cexS2 .startGrade cexS3 := Step.startGrade rfl
  have h4 : Step cexS3 .startAnalyze cexS4 := Step.startAnalyze rfl
  refine ⟨cexS4, ?_, rfl, rfl⟩
  exact Relation.ReflTransGen.tail (Relation.ReflTransGen.tail
    (Relation.ReflTransGen.tail (Relation.ReflTransGen.single ⟨_, h1⟩) ⟨_, h2⟩)
    ⟨_, h3⟩) ⟨_, h4⟩

/-- C2 (amended): each trigger is gated only by the busy
flag — the analyze trigger is unavailable exactly while `isAnalyzing`
and the grade trigger while `isGrading` — but the availability of the
analyze trigger ignores `isGrading`, that of the grade trigger ignores
`isAnalyzing`, and the save trigger ignores both busy flags, so nothing
prevents the two pipelines from being outstanding at once. -/
theorem trigger_gating_per_pipeline (s : AppState) (b₁ b₂ : Bool) :
    (s.isAnalyzing = true → analyzeEnabled s = false) ∧
    (s.isGrading = true → gradeEnabled s = false) ∧
    analyzeEnabled { s with isGrading := b₂ } = analyzeEnabled s ∧
    gradeEnabled { s with isAnalyzing := b₁ } = gradeEnabled s ∧
    saveEnabled { s with isAnalyzing := b₁, isGrading := b₂ } = saveEnabled s := by
  refine ⟨?_, ?_, rfl, rfl, rfl⟩
  · intro h
    simp [analyzeEnabled, h]
  · intro h
    simp [gradeEnabled, h]

/-- C2 witness: the per-pipeline gating at the concrete state with both
flags set. -/
theorem trigger_gating_per_pipeline_witness :
    analyzeEnabled cexS4 = false ∧
    gradeEnabled cexS4 = false ∧
    saveEnabled { cexS4 with isAnalyzing := false, isGrading := false } = saveEnabled cexS4 := by
  have h := trigger_gating_per_pipeline cexS4 false false
  exact ⟨h.1 rfl, h.2.1 rfl, h.2.2.2.2⟩

/-- C6 counterexample: a stored blob that is valid JSON but not a
gallery array (for example the two-character text of an empty object
literal, parsing to the empty object) misses the catch: the initializer returns the parsed object
unchanged through the unchecked cast — not a sequence (not a JSON
array, decoding as no gallery) and in particular not the empty
sequence. -/
theorem load_nonarray_blob_cex :
    loadGalleryValue (some "blob") (fun _ => .ok (.obj [])) = .obj [] ∧
    (loadGalleryValue (some "blob") (fun _ => .ok (.obj []))).isArr = false ∧
    galleryFromJson (loadGalleryValue (some "blob") (fun _ => .ok (.obj []))) = .error () ∧
    (galleryToJson []).isArr = true :=
  ⟨rfl, rfl, rfl, rfl⟩

/-- C6 (amended): the gallery initializer never raises: with the key
absent, the stored string empty, or the JSON parse throwing, it returns
the empty sequence; but a blob that parses as JSON is returned
unchanged through the unchecked `as GalleryImage[]` cast, with no shape
validation, so a well-formed-JSON non-gallery blob yields that parsed
value rather than the empty sequence. -/
theorem load_initializer_cases (parse : String → Except Unit Json)
    (s t : String) (j : Json)
    (hok : parse s = .ok j) (hs : s ≠ "") (herr : parse t = .error ()) :
    loadGalleryValue none parse = galleryToJson [] ∧
    loadGalleryValue (some "") parse = galleryToJson [] ∧
    loadGalleryValue (some t) parse = galleryToJson [] ∧
    loadGalleryValue (some s) parse = j := by
  refine ⟨rfl, rfl, ?_, ?_⟩
  · by_cases ht : t = ""
    · simp [loadGalleryValue, ht, galleryToJson]
    · simp [loadGalleryValue, ht, herr, galleryToJson]
  · simp [loadGalleryValue, hs, hok]

/-- A concrete text layer: one parseable non-gallery blob, everything
else throwing. -/
def sampleParse : String → Except Unit Json :=
  fun u => if u = "doc" then .ok (.obj []) else .error ()

/-- C6 witness: the amended cases at concrete blobs — absent key, empty
string and unparsable text give the empty sequence, the parseable
non-gallery blob gives its parsed value back. -/
theorem load_initializer_cases_witness :
    loadGalleryValue none sampleParse = galleryToJson [] ∧
    loadGalleryValue (some "") sampleParse = galleryToJson [] ∧
    loadGalleryValue (some "bad") sampleParse = galleryToJson [] ∧
    loadGalleryValue (some "doc") sampleParse = .obj [] := by
  exact load_initializer_cases sampleParse "doc" "bad" (.obj []) rfl (by decide) rfl

/-- Decoding inverts encoding on one gallery entry. -/
theorem imageFromJson_imageToJson (g : GalleryImage) :
    imageFromJson (imageToJson g) = .ok g := by
  cases g with
  | mk id imageData referenceImage score timestamp => cases referenceImage <;> rfl

/-- Decoding inverts encoding elementwise on a stored gallery array. -/
theorem galleryItemsFromJson_map (g : List GalleryImage) :
    galleryItemsFromJson (g.map imageToJson) = .ok g := by
  induction g with
  | nil => rfl
  | cons a as ih =>
    simp only [List.map, galleryItemsFromJson, imageFromJson_imageToJson, ih]
    rfl

/-- Decoding inverts encoding on a stored gallery document. -/
theorem galleryFromJson_galleryToJson (g : List GalleryImage) :
    galleryFromJson (galleryToJson g) = .ok g :=
  galleryItemsFromJson_map g

/-- C8: persisting a gallery and reloading it yields exactly the
persisted document — the encoding of the original gallery — and that
reloaded value decodes, element for element and in order, to the
original sequence; the hypotheses say the platform text layer is
lossless on the persisted document (`JSON.parse` of `JSON.stringify`
gives the document back) and the persisted text is nonempty (as
`JSON.stringify` of an array always is). -/
theorem persist_load_roundtrip (g : List GalleryImage)
    (stringify : Json → String) (parse : String → Except Unit Json)
    (hinv : parse (persistGallery stringify g) = .ok (galleryToJson g))
    (hne : persistGallery stringify g ≠ "") :
    loadGalleryValue (some (persistGallery stringify g)) parse = galleryToJson g ∧
    galleryFromJson (loadGalleryValue (some (persistGallery stringify g)) parse) = .ok g := by
  have h1 : loadGalleryValue (some (persistGallery stringify g)) parse = galleryToJson g := by
    simp [loadGalleryValue, hne, hinv]
  refine ⟨h1, ?_⟩
  rw [h1]
  exact galleryFromJson_galleryToJson g

/-- C8 witness: the round trip on a concrete two-image gallery, with a
concrete text layer that is lossless on its persisted document. -/
theorem persist_load_roundtrip_witness :
    loadGalleryValue
      (some (persistGallery (fun _ => "doc") [sampleImage, sampleImage2]))
      (fun _ => .ok (galleryToJson [sampleImage, sampleImage2])) =
      galleryToJson [sampleImage, sampleImage2] ∧
    galleryFromJson
      (loadGalleryValue
        (some (persistGallery (fun _ => "doc") [sampleImage, sampleImage2]))
        (fun _ => .ok (galleryToJson [sampleImage, sampleImage2]))) =
      .ok [sampleImage, sampleImage2] := by
  exact persist_load_roundtrip [sampleImage, sampleImage2]
    (fun _ => "doc") (fun _ => .ok (galleryToJson [sampleImage, sampleImage2]))
    rfl (by decide)

end InstaPose
